import Mathlib

/-!
Verification of the persistent-terminal session manager
(`src/persistent-terminal/scripts/persistent_terminal.py`).

The script manages long-lived shell sessions across short-lived CLI
invocations.  Two backends implement the capability set
create / exec / send / read / list / close / close-all:

* `TmuxBackend` drives an external tmux server, and
* `SubprocessBackend` uses a detached supervisor daemon, a named pipe
  (`stdin.fifo`) for inbound commands and an append-only `output.log`.

Session metadata is persisted as one JSON record per name under
`.temp/terminal-sessions/`.

Embedding conventions
* All Python text is modelled as `List Char` (`Text`); `st_size` and
  Python string slicing then agree (the script only ever handles the
  log as one text).
* The on-disk state visible to the script is a record `Fs`: the session
  record store (name ↦ record), the per-session `output.log` contents
  and the presence of the per-session `stdin.fifo`.
* Environmental effects are explicit parameters: `alive` models
  `os.kill(pid, 0)` succeeding, `TmuxEnv.hasSession` models
  `tmux has-session` (and `tmux kill-session` succeeding, which tmux
  does exactly when the session exists), `captures i` is the text
  returned by `tmux capture-pane` at the i-th poll, and `logAt t` is
  the contents of `output.log` at abstract time `t` (one unit per
  `time.sleep(0.1)`, three per `time.sleep(0.3)`).
* The Unix code path is modelled (`IS_WINDOWS = False`); quote
  punctuation inside the Chinese result messages is elided.
-/

/-- Python strings, modelled as character lists. -/
abbrev Text := List Char

/-- Literal conversion from a Lean string literal. -/
def txt (s : String) : Text := s.data

/-- The newline separator used by `"\n".join` / `split("\n")`. -/
def nl : Text := ['\n']

/-- Python's whitespace class, as used by `str.strip` / `str.rstrip`
(the common ASCII part). -/
def pyIsSpace (c : Char) : Bool :=
  c = ' ' || c = '\t' || c = '\n' || c = '\r' || c = Char.ofNat 11 || c = Char.ofNat 12

/-- Python `s.rstrip()`. -/
def pyRstrip (s : Text) : Text :=
  (s.reverse.dropWhile pyIsSpace).reverse

/-- Python `s.strip()`. -/
def pyStrip (s : Text) : Text :=
  pyRstrip (s.dropWhile pyIsSpace)

/-- Python `l[-n:]` on a list, for a non-negative count `n`
(`l[-0:]` is the whole list). -/
def pyTakeLast (n : Nat) (l : List α) : List α :=
  if n = 0 then l else l.drop (l.length - n)

/-- The structured result object built by `_result(success, **kwargs)`:
a success flag plus the operation-specific fields that appear in the
script (`error`, `output`, `warning`, `session`, `message`, `note`,
`output_file`, `lines_count`). -/
structure Result where
  success : Bool
  error : Option Text := none
  output : Option Text := none
  warning : Option Text := none
  session : Option Text := none
  message : Option Text := none
  note : Option Text := none
  output_file : Option Text := none
  lines_count : Option Nat := none
  deriving DecidableEq

/-- One on-disk session record (`{name, pid, shell, created_at}`;
the timestamp plays no role in any claim and is omitted). -/
structure SessionInfo where
  name : Text
  pid : Int
  shell : Text
  deriving DecidableEq

/-- The on-disk state under `.temp/terminal-sessions/`: the record
store (`<name>.json` files), per-session `output.log` contents and
per-session `stdin.fifo` presence. -/
structure Fs where
  store : Text → Option SessionInfo
  logs : Text → Option Text
  fifos : Text → Bool

/-- Pointwise update of a name-keyed map. -/
def upd (f : Text → α) (k : Text) (v : α) : Text → α :=
  fun x => if x = k then v else f x

/-- An empty session store directory. -/
def emptyFs : Fs :=
  { store := fun _ => none, logs := fun _ => none, fifos := fun _ => false }

/-- The state of the external tmux server: which sessions exist. -/
structure TmuxEnv where
  hasSession : Text → Bool

/-- Python's substring test `needle in hay`. -/
def txtIn (needle : Text) : Text → Bool
  | [] => needle.isEmpty
  | c :: rest => needle.isPrefixOf (c :: rest) || txtIn needle rest

/-! ### TmuxBackend (`persistent_terminal.py` lines 120-281) -/

/-- The marker-scanning loop of `TmuxBackend.exec_cmd` (lines 178-188):
walk the captured lines with a `collecting` flag, turning it on at a
line containing the start sentinel, off at a line containing the end
sentinel, and keeping the lines seen while it is on. -/
def collectBetween (startM endM : Text) : List Text → Bool → List Text
  | [], _ => []
  | l :: rest, collecting =>
    if txtIn startM l then collectBetween startM endM rest true
    else if txtIn endM l then collectBetween startM endM rest false
    else if collecting then l :: collectBetween startM endM rest true
    else collectBetween startM endM rest false

/-- Line 190-191: drop the first collected line when it contains the
(stripped) command text — the terminal echo of the typed input. -/
def dropEchoLine (cmdText : Text) : List Text → List Text
  | [] => []
  | l :: rest => if txtIn cmdText l then rest else l :: rest

/-- Lines 176-192 of `TmuxBackend.exec_cmd`: split the captured pane
text into lines, collect the lines between the two sentinel lines,
drop a leading command echo, join with newlines and right-strip. -/
def tmuxExtract (marker cmd captured : Text) : Text :=
  let lines := captured.splitOn '\n'
  let result_lines := collectBetween (marker ++ txt "_START") (marker ++ txt "_END") lines false
  let result_lines := dropEchoLine (pyStrip cmd) result_lines
  pyRstrip (List.intercalate nl result_lines)

/-- The polling loop of `TmuxBackend.exec_cmd` (lines 168-175): up to
`timeout * 10` polls, returning the first captured pane text that
contains the end sentinel, or `none` when the wait is exhausted. -/
def tmuxPollFind (captures : Nat → Text) (endM : Text) : Nat → Nat → Option Text
  | 0, _ => none
  | fuel + 1, i =>
    if txtIn endM (captures i) then some (captures i)
    else tmuxPollFind captures endM fuel (i + 1)

/-- `TmuxBackend.exec_cmd` (lines 146-199).  `captures i` is the pane
content observed at the i-th poll; `marker` is the per-call token
`__CMD_<ms>__`. -/
def tmuxExecCmd (env : TmuxEnv) (captures : Nat → Text) (marker : Text)
    (name cmd : Text) (timeout : Nat) : Result :=
  if env.hasSession name = false then
    { success := false, error := some (txt "会话 " ++ name ++ txt " 不存在") }
  else
    match tmuxPollFind captures (marker ++ txt "_END") (timeout * 10) 0 with
    | some captured =>
      { success := true, session := some name, output := some (tmuxExtract marker cmd captured) }
    | none =>
      { success := true, session := some name, output := some [],
        warning := some (txt "命令执行超时，请稍后用 read 查看输出") }

/-- `TmuxBackend.read` (lines 213-236).  `captured` is the text returned
by `tmux capture-pane -p -S -lines`. -/
def tmuxRead (env : TmuxEnv) (captured : Text) (name : Text)
    (lines max_chars : Nat) (output_file : Text) : Result :=
  if env.hasSession name = false then
    { success := false, error := some (txt "会话 " ++ name ++ txt " 不存在") }
  else
    let output := pyRstrip captured
    let output :=
      if 0 < max_chars ∧ max_chars < output.length then
        output.drop (output.length - max_chars) ++ txt "\n... (输出已截断)"
      else output
    if output_file ≠ [] then
      { success := true, session := some name, output_file := some output_file,
        lines_count := some (output.splitOn '\n').length }
    else
      { success := true, session := some name, output := some output }

/-- `TmuxBackend.close` (lines 263-271): run `tmux kill-session`
(which succeeds exactly when the session exists), then remove the
session record unconditionally, then report the kill outcome. -/
def tmuxClose (env : TmuxEnv) (fs : Fs) (name : Text) : Result × Fs :=
  let killOk := env.hasSession name
  let fs' : Fs := { fs with store := upd fs.store name none }
  if killOk then
    ({ success := true, session := some name, message := some (txt "会话 " ++ name ++ txt " 已关闭") }, fs')
  else
    ({ success := false, error := some (txt "关闭失败: ") }, fs')

/-- `TmuxBackend.close_all` (lines 273-281): `tmux kill-server`, delete
every `*.json` record, report success. -/
def tmuxCloseAll (fs : Fs) : Result × Fs :=
  ({ success := true, message := some (txt "所有会话已关闭") },
   { fs with store := fun _ => none })

/-! ### SubprocessBackend (`persistent_terminal.py` lines 288-558) -/

/-- The outcome of the one-shot fallback's `subprocess.run` call
(lines 545-558): the spawned shell's combined stdout+stderr, a
`TimeoutExpired`, or some other exception. -/
inductive OneShotOutcome where
  | completed (out : Text)
  | timedOut
  | failed (msg : Text)

/-- `_exec_via_new_process` (lines 540-558): spawn a fresh
`/bin/bash -c cmd`, capture combined output, append it to the session
log prefixed with the command text, and return it right-stripped; on
`TimeoutExpired` return a success with empty output and a warning; on
any other exception return a failure.  `logContent` is the current
contents of `output.log` (the unused `before_size` argument of the
source is omitted). -/
def execViaNewProcess (outcome : OneShotOutcome) (fs : Fs)
    (name cmd logContent : Text) : Result × Fs :=
  match outcome with
  | .completed out =>
    let entry := txt "$ " ++ cmd ++ nl ++ out ++ nl
    ({ success := true, session := some name, output := some (pyRstrip out),
       note := some (txt "通过独立进程执行") },
     { fs with logs := upd fs.logs name (some (logContent ++ entry)) })
  | .timedOut =>
    ({ success := true, session := some name, output := some [],
       warning := some (txt "命令执行超时") }, fs)
  | .failed e =>
    ({ success := false, error := some e }, fs)

/-- The size-polling loop of `SubprocessBackend.exec_cmd`
(lines 421-429): up to `timeout * 10` iterations; each sleeps 0.1s,
reads the log size and, if it grew beyond `before`, sleeps another
0.3s and breaks when a re-read gives the same size.  Returns the
abstract time at which the loop is left (by break or exhaustion). -/
def fifoPollTime (logAt : Nat → Text) (before : Nat) : Nat → Nat → Nat
  | 0, t => t
  | fuel + 1, t =>
    let t1 := t + 1
    let cur := (logAt t1).length
    if before < cur then
      let t2 := t1 + 3
      if (logAt t2).length = cur then t2
      else fifoPollTime logAt before fuel t2
    else fifoPollTime logAt before fuel t1

/-- `SubprocessBackend.exec_cmd` (lines 384-433), Unix path.
`alive pid` models `os.kill(pid, 0)` succeeding; `oneShot` is the
outcome of the one-shot fallback if it is reached; `logAt t` is the
contents of `output.log` at abstract time `t` (time 0 = just after the
command is written to the FIFO). -/
def subExecCmd (alive : Int → Bool) (oneShot : OneShotOutcome)
    (logAt : Nat → Text) (fs : Fs) (name cmd : Text) (timeout : Nat) :
    Result × Fs :=
  match fs.store name with
  | none => ({ success := false, error := some (txt "会话 " ++ name ++ txt " 不存在") }, fs)
  | some info =>
    match fs.logs name with
    | none =>
      ({ success := false, error := some (txt "会话 " ++ name ++ txt " 的输出文件不存在") }, fs)
    | some logContent =>
      if 0 < info.pid ∧ alive info.pid = false then
        execViaNewProcess oneShot fs name cmd logContent
      else
        let before := logContent.length
        if fs.fifos name = false then
          execViaNewProcess oneShot fs name cmd logContent
        else
          let exitT := fifoPollTime logAt before (timeout * 10) 0
          let finalContent := logAt exitT
          ({ success := true, session := some name,
             output := some (pyRstrip (finalContent.drop before)) },
           { fs with logs := upd fs.logs name (some finalContent) })

/-- `SubprocessBackend.create` (lines 291-382), Unix path, after the
already-exists check: write an empty `output.log`, create
`stdin.fifo`, spawn the detached supervisor and record the session
with the supervisor's pid. -/
def subCreateFresh (daemonPid : Int) (fs : Fs) (name : Text)
    (shell : Option Text) : Result × Fs :=
  let shell_cmd := shell.getD (txt "/bin/bash")
  let fs := { fs with logs := upd fs.logs name (some []) }
  let fs := { fs with fifos := upd fs.fifos name true }
  let fs := { fs with store := upd fs.store name (some { name := name, pid := daemonPid, shell := shell_cmd }) }
  ({ success := true, session := some name,
     message := some (txt "会话 " ++ name ++ txt " 已创建") }, fs)

/-- `SubprocessBackend.create` (lines 291-382), Unix path: if a record
exists and its pid answers `os.kill(pid, 0)`, fail (already exists);
if a record exists but the probe raises, delete the stale record and
proceed; otherwise proceed directly. -/
def subCreate (alive : Int → Bool) (daemonPid : Int) (fs : Fs)
    (name : Text) (shell : Option Text) : Result × Fs :=
  match fs.store name with
  | some info =>
    if alive info.pid then
      ({ success := false, error := some (txt "会话 " ++ name ++ txt " 已存在") }, fs)
    else
      subCreateFresh daemonPid { fs with store := upd fs.store name none } name shell
  | none => subCreateFresh daemonPid fs name shell

/-- `SubprocessBackend.send` (lines 435-448): look only at
`stdin.fifo`; if it is absent fail, otherwise write `text + "\n"` to
it and report success.  Neither the session record nor process
liveness is consulted. -/
def subSend (fs : Fs) (name text : Text) : Result × Fs :=
  if fs.fifos name = false then
    ({ success := false, error := some (txt "会话 " ++ name ++ txt " 不存在或无 FIFO") }, fs)
  else
    ({ success := true, session := some name, message := some (txt "文本已发送") }, fs)

/-- `SubprocessBackend.read` (lines 450-468).  Its Python signature is
`read(name, lines=50, output_file="")` — there is **no** `max_chars`
parameter and no truncation step, unlike `TmuxBackend.read`. -/
def subRead (fs : Fs) (name : Text) (lines : Nat) (output_file : Text) : Result :=
  match fs.logs name with
  | none => { success := false, error := some (txt "会话 " ++ name ++ txt " 不存在") }
  | some content =>
    let last_lines := List.intercalate nl (pyTakeLast lines (content.splitOn '\n'))
    let output := pyRstrip last_lines
    if output_file ≠ [] then
      { success := true, session := some name, output_file := some output_file,
        lines_count := some (output.splitOn '\n').length }
    else
      { success := true, session := some name, output := some output }

/-! ### The `read` dispatch in `main` (lines 740-743)

`main` invokes `backend.read(args.name, args.lines, max_chars,
output_file)` with four positional arguments, whichever backend was
selected.  Python accepts such a call exactly when the argument count
lies between the function's number of required parameters and its
total number of parameters, and raises `TypeError` otherwise. -/

/-- A Python call outcome: a value, or an uncaught `TypeError` from
binding the positional arguments. -/
inductive PyOutcome (α : Type) where
  | ok (a : α)
  | typeError
  deriving DecidableEq

/-- `TmuxBackend.read(name, lines=30, max_chars=2000, output_file="")`:
1 required parameter, 4 parameters in total (line 214). -/
def tmuxReadRequiredParams : Nat := 1

def tmuxReadTotalParams : Nat := 4

/-- `SubprocessBackend.read(name, lines=50, output_file="")`:
1 required parameter, 3 parameters in total (line 451). -/
def subReadRequiredParams : Nat := 1

def subReadTotalParams : Nat := 3

/-- `main` passes 4 positional arguments to `backend.read` (line 743). -/
def mainReadArgCount : Nat := 4

/-- Python positional-argument binding: the call proceeds when the
argument count is admissible, else `TypeError`. -/
def pyCall (required total argc : Nat) (body : Unit → α) : PyOutcome α :=
  if required ≤ argc ∧ argc ≤ total then .ok (body ()) else .typeError

/-- The `read` action of `main` when the tmux backend was selected. -/
def mainReadTmux (env : TmuxEnv) (captured : Text) (name : Text)
    (lines max_chars : Nat) (output_file : Text) : PyOutcome Result :=
  pyCall tmuxReadRequiredParams tmuxReadTotalParams mainReadArgCount
    (fun _ => tmuxRead env captured name lines max_chars output_file)

/-- The `read` action of `main` when the subprocess backend was
selected: the same four positional arguments are passed to a function
with only three parameters, so the third argument (`max_chars`) would
land in `output_file` and the fourth overflows. -/
def mainReadSubprocess (fs : Fs) (name : Text)
    (lines max_chars : Nat) (output_file : Text) : PyOutcome Result :=
  pyCall subReadRequiredParams subReadTotalParams mainReadArgCount
    (fun _ => subRead fs name lines output_file)

/-! ### Concrete fixtures used by the witnesses -/

/-- A tmux server with no sessions. -/
def tmuxEnvNone : TmuxEnv := { hasSession := fun _ => false }

/-- A tmux server on which every session name answers. -/
def tmuxEnvAll : TmuxEnv := { hasSession := fun _ => true }

/-- A session record with owner pid 0 (the no-pipe creation mode). -/
def recPidZero : SessionInfo := { name := txt "s2", pid := 0, shell := txt "/bin/bash" }

/-- A live-looking session record. -/
def recPidSeven : SessionInfo := { name := txt "s1", pid := 7, shell := txt "/bin/bash" }

/-- A store directory holding only a leftover `stdin.fifo` for `s1`
(its record was deleted). -/
def fsPipeOnly : Fs := { emptyFs with fifos := upd emptyFs.fifos (txt "s1") true }

/-- A store directory holding only a record for `s2`, with no pipe. -/
def fsRecNoPipe : Fs := { emptyFs with store := upd emptyFs.store (txt "s2") (some recPidZero) }

/-- A store directory holding a record for `s1` (pid 7) together with
its log and pipe — a normally created session. -/
def fsLiveS1 : Fs :=
  { store := upd emptyFs.store (txt "s1") (some recPidSeven),
    logs := upd emptyFs.logs (txt "s1") (some []),
    fifos := upd emptyFs.fifos (txt "s1") true }

/-- A store directory holding a record for `s1` (pid 7) but no
`output.log` and no pipe. -/
def fsRecNoLog : Fs := { emptyFs with store := upd emptyFs.store (txt "s1") (some recPidSeven) }

/-- A store directory in which session `s1` has a ten-character
single-line log. -/
def fsLongLog : Fs := { emptyFs with logs := upd emptyFs.logs (txt "s1") (some (txt "0123456789")) }

/-! ### Helper lemmas -/

theorem upd_self (f : Text → α) (k : Text) (v : α) : upd f k v k = v := by
  simp [upd]

theorem pyTakeLast_of_le (n : Nat) (l : List α) (h : l.length ≤ n) :
    pyTakeLast n l = l := by
  unfold pyTakeLast
  rcases Nat.eq_zero_or_pos n with h0 | h0
  · simp [h0]
  · have : l.length - n = 0 := Nat.sub_eq_zero_of_le h
    simp [Nat.pos_iff_ne_zero.mp h0, this]

theorem tmuxPollFind_eq_none (captures : Nat → Text) (endM : Text)
    (h : ∀ j, txtIn endM (captures j) = false) :
    ∀ fuel i, tmuxPollFind captures endM fuel i = none := by
  intro fuel
  induction fuel with
  | zero => intro i; rfl
  | succ n ih => intro i; simp [tmuxPollFind, h i, ih]

theorem fifoPollTime_ge (logAt : Nat → Text) (pre out : Text) (t0 : Nat)
    (hbefore : ∀ u, u < t0 → logAt u = pre)
    (hafter : ∀ u, t0 ≤ u → logAt u = pre ++ out)
    (hout : out ≠ []) :
    ∀ fuel t, t0 ≤ t + fuel → t0 ≤ fifoPollTime logAt pre.length fuel t := by
  intro fuel
  induction fuel with
  | zero => intro t ht; simpa [fifoPollTime] using ht
  | succ n ih =>
    intro t ht
    unfold fifoPollTime
    rcases Nat.lt_or_ge (t + 1) t0 with hlt | hge
    · have hcur : logAt (t + 1) = pre := hbefore _ hlt
      have : ¬ pre.length < (logAt (t + 1)).length := by
        rw [hcur]; exact Nat.lt_irrefl _
      simp only [this, if_false]
      exact ih (t + 1) (by omega)
    · have hcur : logAt (t + 1) = pre ++ out := hafter _ hge
      have hlen : pre.length < (logAt (t + 1)).length := by
        rw [hcur, List.length_append]
        have : 0 < out.length := List.length_pos.mpr hout
        omega
      have hfin : logAt (t + 1 + 3) = pre ++ out := hafter _ (by omega)
      have heq : (logAt (t + 1 + 3)).length = (logAt (t + 1)).length := by
        rw [hcur, hfin]
      simp only [hlen, if_true, heq, if_pos rfl]
      omega

theorem collectBetween_skip (startM endM : Text) (xs ys : List Text)
    (h : ∀ l ∈ xs, txtIn startM l = false ∧ txtIn endM l = false) :
    collectBetween startM endM (xs ++ ys) false =
      collectBetween startM endM ys false := by
  induction xs with
  | nil => rfl
  | cons x rest ih =>
    have hx := h x (List.mem_cons_self x rest)
    simp only [List.cons_append, collectBetween, hx.1, hx.2]
    simp only [if_false, Bool.false_eq_true]
    exact ih (fun l hl => h l (List.mem_cons_of_mem x hl))

theorem collectBetween_collect (startM endM : Text) (xs ys : List Text)
    (h : ∀ l ∈ xs, txtIn startM l = false ∧ txtIn endM l = false) :
    collectBetween startM endM (xs ++ ys) true =
      xs ++ collectBetween startM endM ys true := by
  induction xs with
  | nil => rfl
  | cons x rest ih =>
    have hx := h x (List.mem_cons_self x rest)
    simp only [List.cons_append, collectBetween, hx.1, hx.2]
    simp only [if_false, if_true, Bool.false_eq_true, List.cons.injEq, true_and]
    exact ih (fun l hl => h l (List.mem_cons_of_mem x hl))

theorem collectBetween_main (startM endM : Text) (pre mid post : List Text)
    (ls le : Text)
    (hpre : ∀ l ∈ pre, txtIn startM l = false ∧ txtIn endM l = false)
    (hmid : ∀ l ∈ mid, txtIn startM l = false ∧ txtIn endM l = false)
    (hpost : ∀ l ∈ post, txtIn startM l = false ∧ txtIn endM l = false)
    (hls : txtIn startM ls = true)
    (hle_start : txtIn startM le = false)
    (hle_end : txtIn endM le = true) :
    collectBetween startM endM (pre ++ ls :: (mid ++ le :: post)) false = mid := by
  rw [collectBetween_skip startM endM pre _ hpre]
  simp only [collectBetween, hls, if_true]
  rw [collectBetween_collect startM endM mid _ hmid]
  simp only [collectBetween, hle_start, hle_end]
  simp only [if_false, if_true, Bool.false_eq_true]
  have : collectBetween startM endM post false = [] := by
    have := collectBetween_skip startM endM post [] hpost
    simpa using this
  rw [this, List.append_nil]

/-! ### Claim theorems -/

/-- C9: on the multiplexer backend, `close(name)` always deletes the
on-disk session record — `_remove_session_info` runs before the kill
outcome is inspected — so after any close, whatever the reported
outcome, loading the record yields absent. -/
theorem c9_tmux_close_always_deletes_record (env : TmuxEnv) (fs : Fs) (name : Text) :
    (tmuxClose env fs name).2.store name = none := by
  unfold tmuxClose
  cases h : env.hasSession name <;> simp [upd]

/-- C7: closing a name with no corresponding live tmux session yields a
structured failure (success flag false, error description present)
rather than a crash, and `close_all` returns success on any store,
in particular an empty one. -/
theorem c7_close_absent_fails_closeall_succeeds (env : TmuxEnv) (fs : Fs) (name : Text)
    (h : env.hasSession name = false) :
    (tmuxClose env fs name).1.success = false ∧
    (tmuxClose env fs name).1.error ≠ none ∧
    (∀ fs' : Fs, (tmuxCloseAll fs').1.success = true) := by
  refine ⟨?_, ?_, ?_⟩
  · simp [tmuxClose, h]
  · simp [tmuxClose, h]
  · intro fs'; rfl

/-- Witness for C7 at a concrete input: no session named `s1` exists,
close reports a clean failure, and `close_all` on the empty store
succeeds. -/
theorem c7_close_absent_fails_closeall_succeeds_witness :
    ({ hasSession := fun _ => false } : TmuxEnv).hasSession (txt "s1") = false ∧
    (tmuxClose { hasSession := fun _ => false } emptyFs (txt "s1")).1.success = false ∧
    (tmuxClose { hasSession := fun _ => false } emptyFs (txt "s1")).1.error ≠ none ∧
    (tmuxCloseAll emptyFs).1.success = true := by
  have h := c7_close_absent_fails_closeall_succeeds
    { hasSession := fun _ => false } emptyFs (txt "s1") rfl
  exact ⟨rfl, h.1, h.2.1, h.2.2 emptyFs⟩

/-- C10: on the pipe/daemon backend, `send(name, text)` succeeds exactly
when `stdin.fifo` exists; it never consults the session record (the
result is unchanged under any change of the store and logs), and for a
recorded session without a pipe it returns a structured failure. -/
theorem c10_send_depends_only_on_fifo (fs fs2 : Fs) (name text : Text) :
    ((subSend fs name text).1.success = true ↔ fs.fifos name = true) ∧
    (fs.fifos = fs2.fifos → (subSend fs name text).1 = (subSend fs2 name text).1) ∧
    (∀ info : SessionInfo, fs.store name = some info → fs.fifos name = false →
      (subSend fs name text).1.success = false ∧ (subSend fs name text).1.error ≠ none) := by
  refine ⟨?_, ?_, ?_⟩
  · unfold subSend
    cases h : fs.fifos name <;> simp [h]
  · intro hf
    unfold subSend
    rw [hf]
    cases h : fs2.fifos name <;> simp [h]
  · intro info _ hfifo
    simp [subSend, hfifo]

/-- Witness for C10: a name whose record was deleted but whose pipe
file remains is accepted, and a recorded session with no pipe (the
no-pipe creation mode, owner id none) is rejected with an error. -/
theorem c10_send_depends_only_on_fifo_witness :
    ((subSend fsPipeOnly (txt "s1") (txt "hello")).1.success = true) ∧
    (fsRecNoPipe.store (txt "s2") = some recPidZero ∧
     fsRecNoPipe.fifos (txt "s2") = false ∧
     (subSend fsRecNoPipe (txt "s2") (txt "hello")).1.success = false ∧
     (subSend fsRecNoPipe (txt "s2") (txt "hello")).1.error ≠ none) := by
  constructor
  · exact (c10_send_depends_only_on_fifo fsPipeOnly emptyFs (txt "s1") (txt "hello")).1.mpr
      (by simp [fsPipeOnly, upd_self])
  · have h := (c10_send_depends_only_on_fifo fsRecNoPipe emptyFs (txt "s2") (txt "hello")).2.2
      recPidZero (by simp [fsRecNoPipe, upd_self]) rfl
    exact ⟨by simp [fsRecNoPipe, upd_self], rfl, h.1, h.2⟩

/-- C5: on the pipe/daemon backend, `create(name, shell)` fails with an
already-exists error exactly when a record exists whose recorded pid
answers the liveness probe; with a stale record (probe fails) the
record is deleted and creation proceeds, the store afterwards holding
exactly the freshly written record under that name. -/
theorem c5_create_alreadyexists_iff_live_record (alive : Int → Bool) (dPid : Int)
    (fs : Fs) (name : Text) (shell : Option Text) :
    (∀ info, fs.store name = some info → alive info.pid = true →
      (subCreate alive dPid fs name shell).1.success = false ∧
      (subCreate alive dPid fs name shell).1.error ≠ none ∧
      (subCreate alive dPid fs name shell).2 = fs) ∧
    (∀ info, fs.store name = some info → alive info.pid = false →
      (subCreate alive dPid fs name shell).1.success = true ∧
      (subCreate alive dPid fs name shell).2.store name =
        some { name := name, pid := dPid, shell := shell.getD (txt "/bin/bash") }) ∧
    (fs.store name = none →
      (subCreate alive dPid fs name shell).1.success = true ∧
      (subCreate alive dPid fs name shell).2.store name =
        some { name := name, pid := dPid, shell := shell.getD (txt "/bin/bash") }) ∧
    ((subCreate alive dPid fs name shell).1.success = false ↔
      ∃ info, fs.store name = some info ∧ alive info.pid = true) := by
  cases h : fs.store name with
  | none =>
    refine ⟨?_, ?_, ?_, ?_⟩
    · intro info hinfo; exact absurd hinfo (by simp)
    · intro info hinfo; exact absurd hinfo (by simp)
    · intro _; constructor
      · simp [subCreate, h, subCreateFresh]
      · simp [subCreate, h, subCreateFresh, upd_self]
    · constructor
      · intro hfail
        exact absurd hfail (by simp [subCreate, h, subCreateFresh])
      · rintro ⟨info, hinfo, _⟩
        exact absurd hinfo (by simp)
  | some info =>
    cases ha : alive info.pid with
    | true =>
      refine ⟨?_, ?_, ?_, ?_⟩
      · intro info' hinfo' _
        obtain rfl : info = info' := Option.some.inj hinfo'
        refine ⟨?_, ?_, ?_⟩ <;> simp [subCreate, h, ha]
      · intro info' hinfo' ha'
        obtain rfl : info = info' := Option.some.inj hinfo'
        rw [ha] at ha'; cases ha'
      · intro hnone; cases hnone
      · constructor
        · intro _; exact ⟨info, rfl, ha⟩
        · intro _; simp [subCreate, h, ha]
    | false =>
      refine ⟨?_, ?_, ?_, ?_⟩
      · intro info' hinfo' ha'
        obtain rfl : info = info' := Option.some.inj hinfo'
        rw [ha] at ha'; cases ha'
      · intro info' hinfo' _
        obtain rfl : info = info' := Option.some.inj hinfo'
        constructor
        · simp [subCreate, h, ha, subCreateFresh]
        · simp [subCreate, h, ha, subCreateFresh, upd_self]
      · intro hnone; cases hnone
      · constructor
        · intro hfail
          exact absurd hfail (by simp [subCreate, h, ha, subCreateFresh])
        · rintro ⟨info', hinfo', ha'⟩
          obtain rfl : info = info' := Option.some.inj hinfo'
          rw [ha] at ha'; cases ha'

/-- Witness for C5: with a stale record for `s1` (pid 7, probe fails),
create deletes it and proceeds, leaving exactly the new record
(pid 9); with the probe answering, create fails with an error. -/
theorem c5_create_alreadyexists_iff_live_record_witness :
    (fsRecNoLog.store (txt "s1") = some recPidSeven ∧
     (fun _ => false : Int → Bool) recPidSeven.pid = false ∧
     (subCreate (fun _ => false) 9 fsRecNoLog (txt "s1") none).1.success = true ∧
     (subCreate (fun _ => false) 9 fsRecNoLog (txt "s1") none).2.store (txt "s1") =
       some { name := txt "s1", pid := 9, shell := txt "/bin/bash" }) ∧
    ((subCreate (fun _ => true) 9 fsRecNoLog (txt "s1") none).1.success = false ∧
     (subCreate (fun _ => true) 9 fsRecNoLog (txt "s1") none).1.error ≠ none) := by
  constructor
  · have h := (c5_create_alreadyexists_iff_live_record (fun _ => false) 9
      fsRecNoLog (txt "s1") none).2.1 recPidSeven
      (by simp [fsRecNoLog, emptyFs, upd_self]) rfl
    exact ⟨by simp [fsRecNoLog, emptyFs, upd_self], rfl, h.1, h.2⟩
  · have h := (c5_create_alreadyexists_iff_live_record (fun _ => true) 9
      fsRecNoLog (txt "s1") none).1 recPidSeven
      (by simp [fsRecNoLog, emptyFs, upd_self]) rfl
    exact ⟨h.1, h.2.1⟩

/-- C2 counterexample: on the pipe/daemon backend's FIFO path, a wait
that exceeds the timeout does NOT produce a warning flag.  Concrete
input: live session `s1` (record pid 7, probe answers, pipe present,
empty log), a command whose output never arrives within the wait
(`logAt` constant), timeout 1.  The result is a success with empty
output and `warning = none`, refuting the claim that both backends
return a warning flag on timeout. -/
theorem c2_fifo_timeout_no_warning_counterexample :
    fsLiveS1.store (txt "s1") = some recPidSeven ∧
    (fun _ => true : Int → Bool) recPidSeven.pid = true ∧
    fsLiveS1.fifos (txt "s1") = true ∧
    (subExecCmd (fun _ => true) (.failed []) (fun _ => []) fsLiveS1 (txt "s1") (txt "sleep 99") 1).1.success = true ∧
    (subExecCmd (fun _ => true) (.failed []) (fun _ => []) fsLiveS1 (txt "s1") (txt "sleep 99") 1).1.output = some [] ∧
    (subExecCmd (fun _ => true) (.failed []) (fun _ => []) fsLiveS1 (txt "s1") (txt "sleep 99") 1).1.warning = none := by
  refine ⟨by decide, rfl, by decide, ?_, ?_, ?_⟩ <;> decide

/-- C2 amended: a timed-out wait is reported as a qualified success,
never a hard failure, with empty output and a warning flag on the
multiplexer backend and on the pipe/daemon backend's one-shot fallback
path; on the pipe/daemon backend's FIFO path it is reported as a
success carrying the bytes appended since the pre-write size (empty
when none arrived) with no warning flag. -/
theorem c2_timeout_is_qualified_success
    (env : TmuxEnv) (captures : Nat → Text) (marker name cmd : Text) (timeout : Nat)
    (alive : Int → Bool) (oneShot : OneShotOutcome) (logAt : Nat → Text)
    (fs : Fs) (info : SessionInfo) (L : Text)
    (hsess : env.hasSession name = true)
    (hnoend : ∀ i, txtIn (marker ++ txt "_END") (captures i) = false)
    (hstore : fs.store name = some info)
    (hlog : fs.logs name = some L)
    (halive : alive info.pid = true)
    (hfifo : fs.fifos name = true)
    (hstall : ∀ t, logAt t = L) :
    (tmuxExecCmd env captures marker name cmd timeout =
      { success := true, session := some name, output := some [],
        warning := some (txt "命令执行超时，请稍后用 read 查看输出") }) ∧
    ((execViaNewProcess .timedOut fs name cmd L).1 =
      { success := true, session := some name, output := some [],
        warning := some (txt "命令执行超时") }) ∧
    ((subExecCmd alive oneShot logAt fs name cmd timeout).1.success = true ∧
     (subExecCmd alive oneShot logAt fs name cmd timeout).1.output = some [] ∧
     (subExecCmd alive oneShot logAt fs name cmd timeout).1.warning = none) := by
  refine ⟨?_, rfl, ?_⟩
  · rw [tmuxExecCmd, hsess]
    rw [tmuxPollFind_eq_none captures _ hnoend]
    rfl
  · have hcond : ¬(0 < info.pid ∧ alive info.pid = false) := by
      rintro ⟨_, hfa⟩; rw [halive] at hfa; cases hfa
    rw [subExecCmd, hstore, hlog]
    simp only [hcond, if_false, hfifo, hstall, List.drop_length]
    refine ⟨rfl, rfl, rfl⟩

/-- Witness for C2 (amended) at a concrete input: live session `s1`,
no end sentinel ever captured on tmux, no log growth on the pipe
backend, timeout 1. -/
theorem c2_timeout_is_qualified_success_witness :
    tmuxEnvAll.hasSession (txt "s1") = true ∧
    fsLiveS1.store (txt "s1") = some recPidSeven ∧
    (tmuxExecCmd tmuxEnvAll (fun _ => []) (txt "M") (txt "s1") (txt "x") 1 =
      { success := true, session := some (txt "s1"), output := some [],
        warning := some (txt "命令执行超时，请稍后用 read 查看输出") }) ∧
    ((execViaNewProcess .timedOut fsLiveS1 (txt "s1") (txt "x") []).1 =
      { success := true, session := some (txt "s1"), output := some [],
        warning := some (txt "命令执行超时") }) ∧
    ((subExecCmd (fun _ => true) (.failed []) (fun _ => []) fsLiveS1 (txt "s1") (txt "x") 1).1.success = true ∧
     (subExecCmd (fun _ => true) (.failed []) (fun _ => []) fsLiveS1 (txt "s1") (txt "x") 1).1.output = some [] ∧
     (subExecCmd (fun _ => true) (.failed []) (fun _ => []) fsLiveS1 (txt "s1") (txt "x") 1).1.warning = none) := by
  have hnoendW : ∀ i : Nat, txtIn (txt "M" ++ txt "_END") ([] : Text) = false :=
    fun _ => by decide
  have h := c2_timeout_is_qualified_success tmuxEnvAll (fun _ => []) (txt "M")
    (txt "s1") (txt "x") 1 (fun _ => true) (.failed []) (fun _ => [])
    fsLiveS1 recPidSeven [] rfl hnoendW (by decide) (by decide)
    rfl (by decide) (fun _ => rfl)
  exact ⟨rfl, by decide, h.1, h.2.1, h.2.2⟩

theorem tmuxExtract_of_decomp (marker cmd captured : Text)
    (pre mid post : List Text) (ls le : Text)
    (hsplit : captured.splitOn '\n' = pre ++ ls :: (mid ++ le :: post))
    (hpre : ∀ l ∈ pre, txtIn (marker ++ txt "_START") l = false ∧ txtIn (marker ++ txt "_END") l = false)
    (hmid : ∀ l ∈ mid, txtIn (marker ++ txt "_START") l = false ∧ txtIn (marker ++ txt "_END") l = false)
    (hpost : ∀ l ∈ post, txtIn (marker ++ txt "_START") l = false ∧ txtIn (marker ++ txt "_END") l = false)
    (hls : txtIn (marker ++ txt "_START") ls = true)
    (hle_start : txtIn (marker ++ txt "_START") le = false)
    (hle_end : txtIn (marker ++ txt "_END") le = true) :
    tmuxExtract marker cmd captured =
      pyRstrip (List.intercalate nl (dropEchoLine (pyStrip cmd) mid)) := by
  simp only [tmuxExtract]
  rw [hsplit, collectBetween_main (marker ++ txt "_START") (marker ++ txt "_END")
    pre mid post ls le hpre hmid hpost hls hle_start hle_end]

/-- C4: when the captured pane text contains the (unique) start- and
end-sentinel lines, `TmuxBackend.exec_cmd` returns exactly the lines
strictly between them — both sentinel-bearing lines excluded — with
the leading line dropped when it contains the submitted (stripped)
command text, joined with newlines and right-stripped. -/
theorem c4_tmux_exec_extracts_between_sentinels
    (env : TmuxEnv) (captured marker name cmd : Text) (timeout : Nat)
    (pre mid post : List Text) (ls le : Text)
    (hsess : env.hasSession name = true)
    (htimeout : 0 < timeout)
    (hfound : txtIn (marker ++ txt "_END") captured = true)
    (hsplit : captured.splitOn '\n' = pre ++ ls :: (mid ++ le :: post))
    (hpre : ∀ l ∈ pre, txtIn (marker ++ txt "_START") l = false ∧ txtIn (marker ++ txt "_END") l = false)
    (hmid : ∀ l ∈ mid, txtIn (marker ++ txt "_START") l = false ∧ txtIn (marker ++ txt "_END") l = false)
    (hpost : ∀ l ∈ post, txtIn (marker ++ txt "_START") l = false ∧ txtIn (marker ++ txt "_END") l = false)
    (hls : txtIn (marker ++ txt "_START") ls = true)
    (hle_start : txtIn (marker ++ txt "_START") le = false)
    (hle_end : txtIn (marker ++ txt "_END") le = true) :
    tmuxExecCmd env (fun _ => captured) marker name cmd timeout =
      { success := true, session := some name,
        output := some (pyRstrip (List.intercalate nl (dropEchoLine (pyStrip cmd) mid))) } := by
  rw [tmuxExecCmd, hsess]
  obtain ⟨k, hk⟩ : ∃ k, timeout * 10 = k + 1 := ⟨timeout * 10 - 1, by omega⟩
  rw [hk]
  simp only [tmuxPollFind, hfound, if_true, Bool.true_eq_false, if_false]
  rw [tmuxExtract_of_decomp marker cmd captured pre mid post ls le
    hsplit hpre hmid hpost hls hle_start hle_end]

/-- Witness for C4 at a concrete capture: marker `M`, pane text
`welcome / M_START / echo hi / hi / M_END / bye`; the result is the
text strictly between the sentinel lines with the command echo
dropped: `hi`. -/
theorem c4_tmux_exec_extracts_between_sentinels_witness :
    txtIn (txt "M" ++ txt "_END") (txt "welcome\nM_START\necho hi\nhi\nM_END\nbye") = true ∧
    (txt "welcome\nM_START\necho hi\nhi\nM_END\nbye").splitOn '\n' =
      [txt "welcome"] ++ txt "M_START" :: ([txt "echo hi", txt "hi"] ++ txt "M_END" :: [txt "bye"]) ∧
    tmuxExecCmd tmuxEnvAll (fun _ => txt "welcome\nM_START\necho hi\nhi\nM_END\nbye")
        (txt "M") (txt "s1") (txt "echo hi") 1 =
      { success := true, session := some (txt "s1"),
        output := some (pyRstrip (List.intercalate nl
          (dropEchoLine (pyStrip (txt "echo hi")) [txt "echo hi", txt "hi"]))) } ∧
    pyRstrip (List.intercalate nl (dropEchoLine (pyStrip (txt "echo hi")) [txt "echo hi", txt "hi"])) =
      txt "hi" := by
  refine ⟨by decide, by decide, ?_, by decide⟩
  exact c4_tmux_exec_extracts_between_sentinels tmuxEnvAll
    (txt "welcome\nM_START\necho hi\nhi\nM_END\nbye") (txt "M") (txt "s1") (txt "echo hi") 1
    [txt "welcome"] [txt "echo hi", txt "hi"] [txt "bye"] (txt "M_START") (txt "M_END")
    rfl (by decide) (by decide) (by decide) (by decide) (by decide) (by decide)
    (by decide) (by decide) (by decide)

/-- C6 counterexample: a state with a session record whose liveness
probe fails but whose `output.log` is missing.  The claim mandates the
one-shot fallback (a success result with the output appended to the
log); the code instead returns a structured failure before ever
probing liveness, and the log stays absent. -/
theorem c6_dead_probe_missing_log_counterexample :
    fsRecNoLog.store (txt "s1") = some recPidSeven ∧
    (fun _ => false : Int → Bool) recPidSeven.pid = false ∧
    (subExecCmd (fun _ => false) (.completed (txt "hi")) (fun _ => []) fsRecNoLog (txt "s1") (txt "echo hi") 10).1.success = false ∧
    (subExecCmd (fun _ => false) (.completed (txt "hi")) (fun _ => []) fsRecNoLog (txt "s1") (txt "echo hi") 10).1.error ≠ none ∧
    (subExecCmd (fun _ => false) (.completed (txt "hi")) (fun _ => []) fsRecNoLog (txt "s1") (txt "echo hi") 10).2.logs (txt "s1") = none := by
  refine ⟨by decide, rfl, ?_, ?_, ?_⟩ <;> decide

/-- C6 amended: `exec_cmd` on the pipe/daemon backend behaves by cases:
no record → structured not-found failure; record but missing
`output.log` → structured failure (no fallback); record with an
existing log whose pid is positive and fails the liveness probe →
one-shot fallback that runs the command in a fresh shell, appends the
combined output to the log prefixed with the command text, returns it
right-stripped, and leaves the session record in place. -/
theorem c6_exec_cases (alive : Int → Bool) (oneShot : OneShotOutcome)
    (logAt : Nat → Text) (fs : Fs) (name cmd : Text) (timeout : Nat) (out : Text) :
    (fs.store name = none →
      (subExecCmd alive oneShot logAt fs name cmd timeout).1.success = false ∧
      (subExecCmd alive oneShot logAt fs name cmd timeout).1.error ≠ none ∧
      (subExecCmd alive oneShot logAt fs name cmd timeout).2 = fs) ∧
    (∀ info, fs.store name = some info → fs.logs name = none →
      (subExecCmd alive oneShot logAt fs name cmd timeout).1.success = false ∧
      (subExecCmd alive oneShot logAt fs name cmd timeout).1.error ≠ none ∧
      (subExecCmd alive oneShot logAt fs name cmd timeout).2 = fs) ∧
    (∀ info L, fs.store name = some info → fs.logs name = some L →
      0 < info.pid → alive info.pid = false → oneShot = .completed out →
      (subExecCmd alive oneShot logAt fs name cmd timeout).1.success = true ∧
      (subExecCmd alive oneShot logAt fs name cmd timeout).1.output = some (pyRstrip out) ∧
      (subExecCmd alive oneShot logAt fs name cmd timeout).1.note ≠ none ∧
      (subExecCmd alive oneShot logAt fs name cmd timeout).2.logs name =
        some (L ++ (txt "$ " ++ cmd ++ nl ++ out ++ nl)) ∧
      (subExecCmd alive oneShot logAt fs name cmd timeout).2.store name = some info) := by
  cases h : fs.store name with
  | none =>
    refine ⟨?_, ?_, ?_⟩
    · intro _
      refine ⟨?_, ?_, ?_⟩ <;> simp [subExecCmd, h]
    · intro info hinfo _; exact absurd hinfo (by simp)
    · intro info L hinfo _ _ _ _; exact absurd hinfo (by simp)
  | some info =>
    cases hl : fs.logs name with
    | none =>
      refine ⟨?_, ?_, ?_⟩
      · intro hnone; cases hnone
      · intro info' hinfo' _
        obtain rfl : info = info' := Option.some.inj hinfo'
        refine ⟨?_, ?_, ?_⟩ <;> simp [subExecCmd, h, hl]
      · intro info' L hinfo' hlog'
        cases hlog'
    | some L0 =>
      refine ⟨?_, ?_, ?_⟩
      · intro hnone; cases hnone
      · intro info' hinfo' hlog'; cases hlog'
      · intro info' L hinfo' hlog' hpid halive hone
        obtain rfl : info = info' := Option.some.inj hinfo'
        obtain rfl : L0 = L := Option.some.inj hlog'
        subst hone
        refine ⟨?_, ?_, ?_, ?_, ?_⟩ <;>
          simp [subExecCmd, h, hl, hpid, halive, execViaNewProcess, upd_self]

/-- Witness for C6 (amended) at concrete inputs: a record with a dead
pid-7 owner and an existing empty log falls back to one-shot
execution of `echo hi`, appending `$ echo hi\nhi\n` to the log and
returning `hi`, with the record left in place; a record with a missing
log yields a structured failure. -/
theorem c6_exec_cases_witness :
    (fsLiveS1.store (txt "s1") = some recPidSeven ∧
     fsLiveS1.logs (txt "s1") = some [] ∧
     (0 : Int) < recPidSeven.pid ∧
     (subExecCmd (fun _ => false) (.completed (txt "hi")) (fun _ => []) fsLiveS1 (txt "s1") (txt "echo hi") 10).1.success = true ∧
     (subExecCmd (fun _ => false) (.completed (txt "hi")) (fun _ => []) fsLiveS1 (txt "s1") (txt "echo hi") 10).1.output = some (pyRstrip (txt "hi")) ∧
     (subExecCmd (fun _ => false) (.completed (txt "hi")) (fun _ => []) fsLiveS1 (txt "s1") (txt "echo hi") 10).2.logs (txt "s1") =
       some (([] : Text) ++ (txt "$ " ++ txt "echo hi" ++ nl ++ txt "hi" ++ nl)) ∧
     (subExecCmd (fun _ => false) (.completed (txt "hi")) (fun _ => []) fsLiveS1 (txt "s1") (txt "echo hi") 10).2.store (txt "s1") = some recPidSeven) ∧
    ((subExecCmd (fun _ => false) (.completed (txt "hi")) (fun _ => []) fsRecNoLog (txt "s1") (txt "echo hi") 10).1.success = false ∧
     (subExecCmd (fun _ => false) (.completed (txt "hi")) (fun _ => []) fsRecNoLog (txt "s1") (txt "echo hi") 10).1.error ≠ none) := by
  constructor
  · have h := (c6_exec_cases (fun _ => false) (.completed (txt "hi")) (fun _ => [])
      fsLiveS1 (txt "s1") (txt "echo hi") 10 (txt "hi")).2.2 recPidSeven []
      (by decide) (by decide) (by decide) rfl rfl
    exact ⟨by decide, by decide, by decide, h.1, h.2.1, h.2.2.2.1, h.2.2.2.2⟩
  · have h := (c6_exec_cases (fun _ => false) (.completed (txt "hi")) (fun _ => [])
      fsRecNoLog (txt "s1") (txt "echo hi") 10 (txt "hi")).2.1 recPidSeven
      (by decide) (by decide)
    exact ⟨h.1, h.2.1⟩

/-- C3: the pipe/daemon backend's `read` does not accept the
multiplexer backend's argument list and never truncates.  At the
concrete input (a ten-character log, a requested character cap of 4):
`main`'s uniform four-positional-argument call raises `TypeError` on
the subprocess backend while the tmux backend accepts it; the tmux
`read` truncates to the trailing 4 characters and appends the
truncation notice; the subprocess `read` body returns the full
untruncated tail with no notice. -/
theorem c3_subprocess_read_signature_and_no_truncation :
    (mainReadSubprocess fsLongLog (txt "s1") 30 4 [] = PyOutcome.typeError) ∧
    (mainReadTmux tmuxEnvAll (txt "0123456789") (txt "s1") 30 4 [] =
      PyOutcome.ok (tmuxRead tmuxEnvAll (txt "0123456789") (txt "s1") 30 4 [])) ∧
    ((tmuxRead tmuxEnvAll (txt "0123456789") (txt "s1") 30 4 []).output =
      some (txt "6789" ++ txt "\n... (输出已截断)")) ∧
    ((subRead fsLongLog (txt "s1") 30 []).output = some (txt "0123456789")) := by
  refine ⟨rfl, rfl, ?_, ?_⟩ <;> decide

/-- C8: the failure-propagation policy is violated at the `read`
operation boundary: for every input, `main`'s call
`backend.read(name, lines, max_chars, output_file)` raises an uncaught
`TypeError` when the pipe/daemon backend is selected (its `read` has
only three parameters), escaping to the caller as an unhandled fault,
while the same call is accepted on the multiplexer backend. -/
theorem c8_read_dispatch_escapes_typeerror (fs : Fs) (name : Text)
    (lines maxChars : Nat) (outFile : Text) :
    mainReadSubprocess fs name lines maxChars outFile = PyOutcome.typeError ∧
    (∀ (env : TmuxEnv) (captured : Text),
      mainReadTmux env captured name lines maxChars outFile =
        PyOutcome.ok (tmuxRead env captured name lines maxChars outFile)) := by
  exact ⟨rfl, fun _ _ => rfl⟩

theorem intercalate_splitOn_nl (s : Text) :
    List.intercalate nl (s.splitOn '\n') = s := by
  have h : List.intercalate ['\n'] (s.splitOn '\n') = s := List.intercalate_splitOn s '\n'
  simpa [nl] using h

/-- C1: round trip on the pipe/daemon backend.  For a never-used name,
`create` then `exec_cmd` (for a command whose output `out` — taken up
to trailing whitespace — lands in the log atomically at some poll time
`t0` within the wait budget) then `read` (with a line budget covering
the output) yields exactly `out`: `exec` returns it, and the tail
returned by `read` equals (hence contains) it. -/
theorem c1_create_exec_read_roundtrip
    (alive : Int → Bool) (dPid : Int) (fs : Fs) (name : Text) (shell : Option Text)
    (cmd out : Text) (timeout lines : Nat) (logAt : Nat → Text) (t0 : Nat)
    (oneShot : OneShotOutcome)
    (hfresh : fs.store name = none)
    (halive : alive dPid = true)
    (hout_ne : out ≠ [])
    (hout_strip : pyRstrip out = out)
    (hbefore : ∀ u, u < t0 → logAt u = [])
    (hafter : ∀ u, t0 ≤ u → logAt u = out)
    (ht0 : t0 ≤ timeout * 10)
    (hlines : (out.splitOn '\n').length ≤ lines) :
    (subCreate alive dPid fs name shell).1.success = true ∧
    (subExecCmd alive oneShot logAt (subCreate alive dPid fs name shell).2 name cmd timeout).1.output = some out ∧
    (subRead (subExecCmd alive oneShot logAt (subCreate alive dPid fs name shell).2 name cmd timeout).2 name lines []).output = some out := by
  have hstore1 : (subCreate alive dPid fs name shell).2.store name =
      some { name := name, pid := dPid, shell := shell.getD (txt "/bin/bash") } := by
    simp [subCreate, hfresh, subCreateFresh, upd_self]
  have hlogs1 : (subCreate alive dPid fs name shell).2.logs name = some [] := by
    simp [subCreate, hfresh, subCreateFresh, upd_self]
  have hfifos1 : (subCreate alive dPid fs name shell).2.fifos name = true := by
    simp [subCreate, hfresh, subCreateFresh, upd_self]
  have hsucc : (subCreate alive dPid fs name shell).1.success = true := by
    simp [subCreate, hfresh, subCreateFresh]
  have hexit : t0 ≤ fifoPollTime logAt 0 (timeout * 10) 0 := by
    have h := fifoPollTime_ge logAt [] out t0 hbefore
      (fun u hu => by simpa using hafter u hu) hout_ne (timeout * 10) 0 (by omega)
    simpa using h
  have hfinal : logAt (fifoPollTime logAt 0 (timeout * 10) 0) = out := hafter _ hexit
  have hexecOut : (subExecCmd alive oneShot logAt (subCreate alive dPid fs name shell).2 name cmd timeout).1.output = some out := by
    simp only [subExecCmd, hstore1, hlogs1, hfifos1, halive, List.length_nil,
      Bool.true_eq_false, and_false, if_false]
    simp [hfinal, hout_strip]
  have hlogs2 : (subExecCmd alive oneShot logAt (subCreate alive dPid fs name shell).2 name cmd timeout).2.logs name = some out := by
    simp only [subExecCmd, hstore1, hlogs1, hfifos1, halive, List.length_nil,
      Bool.true_eq_false, and_false, if_false]
    simp [upd_self, hfinal]
  have hread : (subRead (subExecCmd alive oneShot logAt (subCreate alive dPid fs name shell).2 name cmd timeout).2 name lines []).output = some out := by
    simp only [subRead, hlogs2]
    rw [pyTakeLast_of_le lines (out.splitOn '\n') hlines, intercalate_splitOn_nl, hout_strip]
    simp
  exact ⟨hsucc, hexecOut, hread⟩

/-- Witness for C1 at a concrete run: fresh name `s1`, command
`echo hi`, output `hi` arriving at the first poll, timeout 1,
line budget 30: exec returns `hi` and read returns `hi`. -/
theorem c1_create_exec_read_roundtrip_witness :
    emptyFs.store (txt "s1") = none ∧
    (subCreate (fun _ => true) 7 emptyFs (txt "s1") none).1.success = true ∧
    (subExecCmd (fun _ => true) (.failed []) (fun _ => txt "hi")
      (subCreate (fun _ => true) 7 emptyFs (txt "s1") none).2 (txt "s1") (txt "echo hi") 1).1.output = some (txt "hi") ∧
    (subRead (subExecCmd (fun _ => true) (.failed []) (fun _ => txt "hi")
      (subCreate (fun _ => true) 7 emptyFs (txt "s1") none).2 (txt "s1") (txt "echo hi") 1).2
      (txt "s1") 30 []).output = some (txt "hi") := by
  have h := c1_create_exec_read_roundtrip (fun _ => true) 7 emptyFs (txt "s1") none
    (txt "echo hi") (txt "hi") 1 30 (fun _ => txt "hi") 0 (.failed [])
    (by decide) rfl (by decide) (by decide)
    (fun u hu => absurd hu (Nat.not_lt_zero u)) (fun u _ => rfl) (by omega) (by decide)
  exact ⟨by decide, h.1, h.2.1, h.2.2⟩
